import Mathlib

/-!
LoRaWAN stack types (`features/lorawan/lorawan_types.h`)

A shallow embedding of the declarations of `lorawan_types.h`: the message
option flags, the enumerations `lorawan_status_t` and `lorawan_event_t`, the
connection parameter structures, and the bit-packed data-rate range
`dr_range_t` with the channel structures built on it.

Conventions of the embedding.

* `uint8_t` and `uint32_t` are `Fin 256` and `Fin 4294967296`.
* In the parameter structures taken on their own a `uint8_t *` is the
  buffer it points to, `none` for a null pointer. The union `connection_u`
  of `lorawan_connect_t` is its storage, a row of 32-bit words that both
  members read and write; a pointer stored there is its address, and the
  place of each field follows the data model (`data_model`).
* A C `enum` is an inductive type together with the list of its enumerators
  in declaration order. `enum lora_events` initialises only its first
  enumerator, so its values follow from the C numbering rule (`enum_values`);
  `enum lorawan_status` initialises every enumerator.
* `dr_range_t` is one byte of storage. `int8_t` and the `int8_t : 4`
  bit-fields are read as two's-complement numbers; bit-fields are allocated
  from the least significant bit, the first declared field lowest, as the
  Arm procedure call standard does on the little-endian targets of the
  library. Storing an integer into such an object keeps its low 8 (or 4) bits.
-/

namespace Lorawan

abbrev uint8_t := Fin 256

abbrev uint32_t := Fin 4294967296

/-! ## Option flags for `send()`, `receive()` -/

def MSG_UNCONFIRMED_FLAG : Nat := 0x01

def MSG_CONFIRMED_FLAG : Nat := 0x02

def MSG_MULTICAST_FLAG : Nat := 0x04

def MSG_PROPRIETARY_FLAG : Nat := 0x08

/-- Bit mask for message flags. -/
def MSG_FLAG_MASK : Nat := 0x0F

/-- Mask for unconfirmed multicast message. -/
def MSG_UNCONFIRMED_MULTICAST : Nat := 0x05

/-- Mask for confirmed multicast message. -/
def MSG_CONFIRMED_MULTICAST : Nat := 0x06

/-- Mask for unconfirmed proprietary message. -/
def MSG_UNCONFIRMED_PROPRIETARY : Nat := 0x09

/-- Mask for confirmed proprietary message. -/
def MSG_CONFIRMED_PROPRIETARY : Nat := 0x0A

/-- The four base option flags. -/
inductive msg_flag where
  | UNCONFIRMED
  | CONFIRMED
  | MULTICAST
  | PROPRIETARY
  deriving DecidableEq, Repr

/-- The constant the header defines for a base flag. -/
def msg_flag.bit : msg_flag → Nat
  | .UNCONFIRMED => MSG_UNCONFIRMED_FLAG
  | .CONFIRMED => MSG_CONFIRMED_FLAG
  | .MULTICAST => MSG_MULTICAST_FLAG
  | .PROPRIETARY => MSG_PROPRIETARY_FLAG

/-- The flags word of a set of base flags (given by its membership test):
the bitwise OR of the constants of its members. -/
def flags_word (f : msg_flag → Bool) : Nat :=
  (if f .UNCONFIRMED then MSG_UNCONFIRMED_FLAG else 0)
    ||| (if f .CONFIRMED then MSG_CONFIRMED_FLAG else 0)
    ||| (if f .MULTICAST then MSG_MULTICAST_FLAG else 0)
    ||| (if f .PROPRIETARY then MSG_PROPRIETARY_FLAG else 0)

/-! ## Enumerations -/

/-- C numbering of enumerators: an enumerator with an initialiser has that
value, one without has the value of the previous enumerator plus one (`next`),
and the first enumerator without initialiser is numbered from 0. -/
def enum_values {α : Type} : Int → List (α × Option Int) → List (α × Int)
  | _, [] => []
  | _, (a, some v) :: rest => (a, v) :: enum_values (v + 1) rest
  | next, (a, none) :: rest => (a, next) :: enum_values (next + 1) rest

/-- LoRaWAN device classes. -/
inductive device_class_t where
  | CLASS_A
  | CLASS_B
  | CLASS_C
  deriving DecidableEq, Repr

/-- Status codes in response to stack operations, `enum lorawan_status`,
the `LORAWAN_STATUS_` part of each name dropped. -/
inductive lorawan_status_t where
  | OK
  | BUSY
  | WOULD_BLOCK
  | SERVICE_UNKNOWN
  | PARAMETER_INVALID
  | FREQUENCY_INVALID
  | DATARATE_INVALID
  | FREQ_AND_DR_INVALID
  | NO_NETWORK_JOINED
  | LENGTH_ERROR
  | DEVICE_OFF
  | NOT_INITIALIZED
  | UNSUPPORTED
  | CRYPTO_FAIL
  | PORT_INVALID
  | CONNECT_IN_PROGRESS
  | NO_ACTIVE_SESSIONS
  | IDLE
  | COMPLIANCE_TEST_ON
  | DUTYCYCLE_RESTRICTED
  | NO_CHANNEL_FOUND
  | NO_FREE_CHANNEL_FOUND
  deriving DecidableEq, Repr

/-- The initialiser the header gives each status. -/
def lorawan_status_t.code : lorawan_status_t → Int
  | .OK => 0
  | .BUSY => -1000
  | .WOULD_BLOCK => -1001
  | .SERVICE_UNKNOWN => -1002
  | .PARAMETER_INVALID => -1003
  | .FREQUENCY_INVALID => -1004
  | .DATARATE_INVALID => -1005
  | .FREQ_AND_DR_INVALID => -1006
  | .NO_NETWORK_JOINED => -1009
  | .LENGTH_ERROR => -1010
  | .DEVICE_OFF => -1011
  | .NOT_INITIALIZED => -1012
  | .UNSUPPORTED => -1013
  | .CRYPTO_FAIL => -1014
  | .PORT_INVALID => -1015
  | .CONNECT_IN_PROGRESS => -1016
  | .NO_ACTIVE_SESSIONS => -1017
  | .IDLE => -1018
  | .COMPLIANCE_TEST_ON => -1019
  | .DUTYCYCLE_RESTRICTED => -1020
  | .NO_CHANNEL_FOUND => -1021
  | .NO_FREE_CHANNEL_FOUND => -1022

/-- The enumerators of `enum lorawan_status` in declaration order;
`LORAWAN_STATUS_COMPLIANCE_TEST_ON` is declared only when the build defines
`LORAWAN_COMPLIANCE_TEST`. -/
def lorawan_status (LORAWAN_COMPLIANCE_TEST : Bool) : List lorawan_status_t :=
  [.OK, .BUSY, .WOULD_BLOCK, .SERVICE_UNKNOWN, .PARAMETER_INVALID,
    .FREQUENCY_INVALID, .DATARATE_INVALID, .FREQ_AND_DR_INVALID,
    .NO_NETWORK_JOINED, .LENGTH_ERROR, .DEVICE_OFF, .NOT_INITIALIZED,
    .UNSUPPORTED, .CRYPTO_FAIL, .PORT_INVALID, .CONNECT_IN_PROGRESS,
    .NO_ACTIVE_SESSIONS, .IDLE]
    ++ (if LORAWAN_COMPLIANCE_TEST then [.COMPLIANCE_TEST_ON] else [])
    ++ [.DUTYCYCLE_RESTRICTED, .NO_CHANNEL_FOUND, .NO_FREE_CHANNEL_FOUND]

/-- The status a numeric code stands for, looked up among all enumerators. -/
def status_of_code (n : Int) : Option lorawan_status_t :=
  (lorawan_status true).find? (fun s => s.code == n)

/-- The status taxonomy as section 7 of the specification lists it. -/
def spec_status_taxonomy : List lorawan_status_t :=
  [.OK, .BUSY, .WOULD_BLOCK, .PARAMETER_INVALID, .FREQUENCY_INVALID,
    .DATARATE_INVALID, .FREQ_AND_DR_INVALID, .NO_NETWORK_JOINED,
    .LENGTH_ERROR, .DEVICE_OFF, .NOT_INITIALIZED, .UNSUPPORTED, .CRYPTO_FAIL,
    .PORT_INVALID, .CONNECT_IN_PROGRESS, .NO_ACTIVE_SESSIONS, .IDLE,
    .DUTYCYCLE_RESTRICTED, .NO_CHANNEL_FOUND, .NO_FREE_CHANNEL_FOUND]

/-- Events needed to announce stack operation results, `enum lora_events`. -/
inductive lorawan_event_t where
  | CONNECTED
  | DISCONNECTED
  | TX_DONE
  | TX_TIMEOUT
  | TX_ERROR
  | TX_CRYPTO_ERROR
  | TX_SCHEDULING_ERROR
  | RX_DONE
  | RX_TIMEOUT
  | RX_ERROR
  | JOIN_FAILURE
  | UPLINK_REQUIRED
  | AUTOMATIC_UPLINK_ERROR
  deriving DecidableEq, Repr

/-- The enumerators of `enum lora_events` in declaration order; only
`CONNECTED` has an initialiser. -/
def lora_events : List (lorawan_event_t × Option Int) :=
  [(.CONNECTED, some 0), (.DISCONNECTED, none), (.TX_DONE, none),
    (.TX_TIMEOUT, none), (.TX_ERROR, none), (.TX_CRYPTO_ERROR, none),
    (.TX_SCHEDULING_ERROR, none), (.RX_DONE, none), (.RX_TIMEOUT, none),
    (.RX_ERROR, none), (.JOIN_FAILURE, none), (.UPLINK_REQUIRED, none),
    (.AUTOMATIC_UPLINK_ERROR, none)]

/-- The event set as section 3 of the specification lists it. -/
def spec_event_set : List lorawan_event_t :=
  [.CONNECTED, .DISCONNECTED, .TX_DONE, .TX_TIMEOUT, .TX_ERROR,
    .TX_CRYPTO_ERROR, .TX_SCHEDULING_ERROR, .RX_DONE, .RX_TIMEOUT, .RX_ERROR,
    .JOIN_FAILURE, .UPLINK_REQUIRED, .AUTOMATIC_UPLINK_ERROR]

/-- The numeric code of an event: its value in the numbered enumeration. -/
def lorawan_event_t.code (e : lorawan_event_t) : Int :=
  match (enum_values 0 lora_events).lookup e with
  | some v => v
  | none => 0

/-! ## Connection parameters -/

/-- Over-the-air activation parameters, `lorawan_connect_otaa_t`. -/
structure lorawan_connect_otaa_t where
  /-- End-device identifier. -/
  dev_eui : Option (List uint8_t)
  /-- Application identifier. -/
  app_eui : Option (List uint8_t)
  /-- AES-128 application key. -/
  app_key : Option (List uint8_t)
  /-- Number of trials for the join request. -/
  nb_trials : uint8_t
  deriving DecidableEq, Repr

/-- Activation-by-personalization parameters, `lorawan_connect_abp_t`. -/
structure lorawan_connect_abp_t where
  /-- Network identifier. -/
  nwk_id : uint32_t
  /-- End-device address. -/
  dev_addr : uint32_t
  /-- Network session key. -/
  nwk_skey : Option (List uint8_t)
  /-- Application session key. -/
  app_skey : Option (List uint8_t)
  deriving DecidableEq, Repr

/-- Modelled from the spec: the activation parameters of section 3, "a
tagged union with exactly two variants" (section 9: "a sum type with
exhaustive matching"), each variant carrying the header's parameter
structure. The header's own `connection_u` is a plain union; it is embedded
with its storage in `lorawan_connect_t`. -/
inductive connection_u_t where
  | otaa (p : lorawan_connect_otaa_t)
  | abp (p : lorawan_connect_abp_t)
  deriving DecidableEq, Repr

/-- The data models the header is compiled under, both little-endian: ILP32
(32-bit pointers, the Arm Cortex-M targets of the library) and LP64 (64-bit
pointers). -/
inductive data_model where
  | ILP32
  | LP64
  deriving DecidableEq, Repr

/-- The size of a pointer in 32-bit words. -/
def data_model.pointer_words : data_model → Nat
  | .ILP32 => 1
  | .LP64 => 2

/-- The number of values a pointer has: 2^32 or 2^64. -/
def data_model.pointer_limit : data_model → Nat
  | .ILP32 => 4294967296
  | .LP64 => 18446744073709551616

/-- The size of the union `connection_u` in 32-bit words.
`lorawan_connect_otaa_t` is three pointers and a byte, padded to the
alignment of a pointer: four pointers' worth. `lorawan_connect_abp_t` is two
32-bit words and two pointers, which is no larger. -/
def data_model.union_words : data_model → Nat
  | .ILP32 => 4
  | .LP64 => 8

/-- Parameters for the different connections, `lorawan_connect_t`: the
`uint8_t` tag `connect_type` and the storage of the plain union
`connection_u`, which its members `otaa` and `abp` share. A pointer in the
storage is its address. Nothing in the declaration ties the tag to what the
storage holds. -/
structure lorawan_connect_t (m : data_model) where
  connect_type : uint8_t
  connection_u : Fin m.union_words → uint32_t

/-- The 32-bit word of the union at word offset `i`. -/
def lorawan_connect_t.word {m : data_model} (c : lorawan_connect_t m) (i : Nat) : uint32_t :=
  if h : i < m.union_words then c.connection_u ⟨i, h⟩ else 0

/-- Storing a 32-bit word at word offset `i` of the union. -/
def lorawan_connect_t.set_word {m : data_model} (c : lorawan_connect_t m) (i : Nat)
    (v : uint32_t) : lorawan_connect_t m :=
  ⟨c.connect_type, fun k => if k.val = i then v else c.connection_u k⟩

/-- Reading a pointer at word offset `i`: one word, or two with the low word
first. -/
def lorawan_connect_t.pointer {m : data_model} (c : lorawan_connect_t m) (i : Nat) : Nat :=
  if m.pointer_words = 2 then (c.word i).val + 4294967296 * (c.word (i + 1)).val
  else (c.word i).val

/-- Storing the pointer `p` at word offset `i`. -/
def lorawan_connect_t.set_pointer {m : data_model} (c : lorawan_connect_t m) (i : Nat)
    (p : Nat) : lorawan_connect_t m :=
  if m.pointer_words = 2 then
    (c.set_word i ⟨p % 4294967296, by omega⟩).set_word (i + 1)
      ⟨p / 4294967296 % 4294967296, by omega⟩
  else c.set_word i ⟨p % 4294967296, by omega⟩

/-- Reading `connection_u.otaa.dev_eui`, the first pointer of the member. -/
def lorawan_connect_t.otaa_dev_eui {m : data_model} (c : lorawan_connect_t m) : Nat :=
  c.pointer 0

/-- Reading `connection_u.otaa.app_eui`, the second pointer. -/
def lorawan_connect_t.otaa_app_eui {m : data_model} (c : lorawan_connect_t m) : Nat :=
  c.pointer m.pointer_words

/-- Reading `connection_u.otaa.app_key`, the third pointer. -/
def lorawan_connect_t.otaa_app_key {m : data_model} (c : lorawan_connect_t m) : Nat :=
  c.pointer (2 * m.pointer_words)

/-- Reading `connection_u.otaa.nb_trials`, the byte after the three
pointers: the low byte of the word there. -/
def lorawan_connect_t.otaa_nb_trials {m : data_model} (c : lorawan_connect_t m) : uint8_t :=
  ⟨(c.word (3 * m.pointer_words)).val % 256, by omega⟩

/-- Reading `connection_u.abp.nwk_id`, the first word of the member. -/
def lorawan_connect_t.abp_nwk_id {m : data_model} (c : lorawan_connect_t m) : uint32_t :=
  c.word 0

/-- Reading `connection_u.abp.dev_addr`, the second word. -/
def lorawan_connect_t.abp_dev_addr {m : data_model} (c : lorawan_connect_t m) : uint32_t :=
  c.word 1

/-- Reading `connection_u.abp.nwk_skey`, the pointer after the two words. -/
def lorawan_connect_t.abp_nwk_skey {m : data_model} (c : lorawan_connect_t m) : Nat :=
  c.pointer 2

/-- Reading `connection_u.abp.app_skey`, the last pointer. -/
def lorawan_connect_t.abp_app_skey {m : data_model} (c : lorawan_connect_t m) : Nat :=
  c.pointer (2 + m.pointer_words)

/-- The assignment `connection_u.otaa.dev_eui = p`. -/
def lorawan_connect_t.set_otaa_dev_eui {m : data_model} (c : lorawan_connect_t m) (p : Nat) :
    lorawan_connect_t m :=
  c.set_pointer 0 p

/-- The assignment `connection_u.otaa.app_eui = p`. -/
def lorawan_connect_t.set_otaa_app_eui {m : data_model} (c : lorawan_connect_t m) (p : Nat) :
    lorawan_connect_t m :=
  c.set_pointer m.pointer_words p

/-- The assignment `connection_u.otaa.app_key = p`. -/
def lorawan_connect_t.set_otaa_app_key {m : data_model} (c : lorawan_connect_t m) (p : Nat) :
    lorawan_connect_t m :=
  c.set_pointer (2 * m.pointer_words) p

/-- The assignment `connection_u.otaa.nb_trials = n`: the low byte of the
word is replaced, the padding bytes above it stay. -/
def lorawan_connect_t.set_otaa_nb_trials {m : data_model} (c : lorawan_connect_t m)
    (n : uint8_t) : lorawan_connect_t m :=
  c.set_word (3 * m.pointer_words)
    ⟨(c.word (3 * m.pointer_words)).val / 256 * 256 + n.val, by omega⟩

/-- The assignment `connection_u.abp.nwk_id = x`. -/
def lorawan_connect_t.set_abp_nwk_id {m : data_model} (c : lorawan_connect_t m)
    (x : uint32_t) : lorawan_connect_t m :=
  c.set_word 0 x

/-- The assignment `connection_u.abp.dev_addr = x`. -/
def lorawan_connect_t.set_abp_dev_addr {m : data_model} (c : lorawan_connect_t m)
    (x : uint32_t) : lorawan_connect_t m :=
  c.set_word 1 x

/-- The assignment `connection_u.abp.nwk_skey = p`. -/
def lorawan_connect_t.set_abp_nwk_skey {m : data_model} (c : lorawan_connect_t m) (p : Nat) :
    lorawan_connect_t m :=
  c.set_pointer 2 p

/-- The assignment `connection_u.abp.app_skey = p`. -/
def lorawan_connect_t.set_abp_app_skey {m : data_model} (c : lorawan_connect_t m) (p : Nat) :
    lorawan_connect_t m :=
  c.set_pointer (2 + m.pointer_words) p

/-- The two connection types the comment on `connect_type` names. -/
inductive connect_variant where
  | OTAA
  | ABP
  deriving DecidableEq, Repr

/-- The connection type a value's tag selects, "either
LORAWAN_CONNECTION_OTAA or LORAWAN_CONNECTION_ABP". The two constants are
declared outside this header and are parameters here. -/
def lorawan_connect_t.selected {m : data_model}
    (LORAWAN_CONNECTION_OTAA LORAWAN_CONNECTION_ABP : uint8_t)
    (c : lorawan_connect_t m) : Option connect_variant :=
  if c.connect_type = LORAWAN_CONNECTION_OTAA then some .OTAA
  else if c.connect_type = LORAWAN_CONNECTION_ABP then some .ABP
  else none

/-- A tag byte among 0, 1, 2 that differs from both connection-type
constants. -/
def spare_connect_type (LORAWAN_CONNECTION_OTAA LORAWAN_CONNECTION_ABP : uint8_t) : uint8_t :=
  if LORAWAN_CONNECTION_OTAA ≠ 0 ∧ LORAWAN_CONNECTION_ABP ≠ 0 then 0
  else if LORAWAN_CONNECTION_OTAA ≠ 1 ∧ LORAWAN_CONNECTION_ABP ≠ 1 then 1
  else 2

/-! ## Data-rate range and channels -/

/-- An 8-bit pattern read as `int8_t` (two's complement). -/
def int8_of_bits (u : Nat) : Int :=
  if u < 128 then (u : Int) else (u : Int) - 256

/-- A 4-bit pattern read as an `int8_t : 4` bit-field (two's complement). -/
def int4_of_bits (u : Nat) : Int :=
  if u < 8 then (u : Int) else (u : Int) - 16

/-- Structure containing a data rate range, the union `dr_range_t`: one byte
of storage shared by `value` and by `fields.min` (bits 0..3) and `fields.max`
(bits 4..7). -/
structure dr_range_t where
  byte : uint8_t
  deriving DecidableEq, Repr

/-- Byte access to the bits: reading `value`, an `int8_t`. -/
def dr_range_t.value (r : dr_range_t) : Int :=
  int8_of_bits r.byte.val

/-- Reading `fields.min`, an `int8_t : 4`. -/
def dr_range_t.fields_min (r : dr_range_t) : Int :=
  int4_of_bits (r.byte.val % 16)

/-- Reading `fields.max`, an `int8_t : 4`. -/
def dr_range_t.fields_max (r : dr_range_t) : Int :=
  int4_of_bits (r.byte.val / 16)

/-- The assignment `value = v`: the low 8 bits of `v` are stored. -/
def dr_range_t.set_value (_ : dr_range_t) (v : Int) : dr_range_t :=
  ⟨⟨(v % 256).toNat, by omega⟩⟩

/-- The assignment `fields.min = d`: the low 4 bits of `d` replace bits 0..3. -/
def dr_range_t.set_min (r : dr_range_t) (d : Int) : dr_range_t :=
  ⟨⟨(r.byte.val / 16) * 16 + (d % 16).toNat, by omega⟩⟩

/-- The assignment `fields.max = d`: the low 4 bits of `d` replace bits 4..7. -/
def dr_range_t.set_max (r : dr_range_t) (d : Int) : dr_range_t :=
  ⟨⟨(d % 16).toNat * 16 + r.byte.val % 16, by omega⟩⟩

/-- The object with `fields.min = a` and `fields.max = b` stored in turn. -/
def dr_range_t.of_fields (a b : Int) : dr_range_t :=
  ((dr_range_t.mk 0).set_min a).set_max b

/-- LoRaMAC channel definition, `channel_params_t`. -/
structure channel_params_t where
  /-- The frequency in Hz. -/
  frequency : uint32_t
  /-- The alternative frequency for RX window 1. -/
  rx1_frequency : uint32_t
  /-- The data rate definition. -/
  dr_range : dr_range_t
  /-- The band index. -/
  band : uint8_t
  deriving DecidableEq, Repr

/-- Parameters for a LoRa channel, `loramac_channel_t`. -/
structure loramac_channel_t where
  id : uint8_t
  ch_param : channel_params_t
  deriving DecidableEq, Repr

/-- A LoRaWAN channel plan, `lorawan_channelplan_t`: the number of channels
and the array `channels` points to. -/
structure lorawan_channelplan_t where
  nb_channels : uint8_t
  channels : List loramac_channel_t
  deriving DecidableEq, Repr

/-- The channels included in the plan: the first `nb_channels` entries. -/
def lorawan_channelplan_t.entries (plan : lorawan_channelplan_t) : List loramac_channel_t :=
  plan.channels.take plan.nb_channels.val

/-- The data-rate check on a channel: `dr_range.fields.min <= dr_range.fields.max`. -/
def channel_params_t.dr_range_ok (ch : channel_params_t) : Bool :=
  decide (ch.dr_range.fields_min ≤ ch.dr_range.fields_max)

/-! ## Session state machine (specification, section 4.1)

The header only declares types; `connect()` and the state it works on are not
part of it. -/

/-- Modelled from the spec: the states of the session state machine,
"UNINITIALIZED → IDLE → JOIN_IN_PROGRESS → CONNECTED", with "DISCONNECTED"
(section 4.1). The header declares no state type. -/
inductive session_state where
  | UNINITIALIZED
  | IDLE
  | JOIN_IN_PROGRESS
  | CONNECTED
  | DISCONNECTED
  deriving DecidableEq, Repr

/-- Modelled from the spec: the session material (section 3, Session), which
"holds device address, the two session keys (network, application), and
activation mode". The header declares no session type. -/
structure session_t where
  dev_addr : uint32_t
  nwk_skey : List uint8_t
  app_skey : List uint8_t
  mode : connect_variant
  deriving DecidableEq, Repr

/-- Modelled from the spec: the whole state of the session state machine: the
state-machine state, the session material (present while a session exists)
and the retry budget of the join in progress. -/
structure session_sm where
  state : session_state
  session : Option session_t
  retry_budget : Nat
  deriving DecidableEq, Repr

/-- Modelled from the spec: what a call of `connect()` produces: the status
returned, the state left behind and the events emitted by the call. -/
structure connect_result where
  status : lorawan_status_t
  sm : session_sm
  events : List lorawan_event_t
  deriving DecidableEq, Repr

/-- Modelled from the spec: a required byte sequence is given when it is
neither absent nor of length zero (section 4.1, `PARAMETER_INVALID`). -/
def byte_sequence_given : Option (List uint8_t) → Bool
  | some (_ :: _) => true
  | _ => false

/-- Modelled from the spec: the required byte sequences of the selected
variant are given: device identifier, application identifier and application
key for OTAA, the two session keys for ABP (section 3). -/
def connection_u_t.required_given : connection_u_t → Bool
  | .otaa p =>
    byte_sequence_given p.dev_eui && byte_sequence_given p.app_eui
      && byte_sequence_given p.app_key
  | .abp p => byte_sequence_given p.nwk_skey && byte_sequence_given p.app_skey

/-- Modelled from the spec: `connect(ActivationParameters)` of section 4.1;
the function is not in the header. The activation parameters are the two
variants of `connection_u_t`.

* In `JOIN_IN_PROGRESS` the call "always returns BUSY and produces no state
  change" (section 8), so this check comes first. Section 4.1 also names
  `CONNECT_IN_PROGRESS` for a caller that "polls again" once a handshake "has
  just been initiated"; such a call is made in `JOIN_IN_PROGRESS` and returns
  `BUSY` here, `CONNECT_IN_PROGRESS` being the status of the call that
  initiates the handshake (section 5).
* Otherwise it "fails with PARAMETER_INVALID if required byte sequences are
  absent/zero-length for the selected variant".
* From `IDLE`, ABP "transitions directly IDLE → CONNECTED and returns OK";
  OTAA "transitions IDLE → JOIN_IN_PROGRESS" with the retry budget of the
  parameters and "returns CONNECT_IN_PROGRESS immediately" (section 5), the
  outcome of the handshake arriving later as an event.
* The specification does not say what `connect()` does with well-formed
  parameters in the states `UNINITIALIZED`, `CONNECTED` and `DISCONNECTED`;
  that behaviour is the parameter `unspecified`. -/
def connect (unspecified : session_sm → connection_u_t → connect_result)
    (sm : session_sm) (params : connection_u_t) : connect_result :=
  match sm.state with
  | .JOIN_IN_PROGRESS => ⟨.BUSY, sm, []⟩
  | st =>
    if params.required_given = false then ⟨.PARAMETER_INVALID, sm, []⟩
    else
      match st, params with
      | .IDLE, .abp p =>
        ⟨.OK,
          { state := .CONNECTED,
            session := some
              { dev_addr := p.dev_addr,
                nwk_skey := p.nwk_skey.getD [],
                app_skey := p.app_skey.getD [],
                mode := .ABP },
            retry_budget := sm.retry_budget },
          []⟩
      | .IDLE, .otaa p =>
        ⟨.CONNECT_IN_PROGRESS,
          { state := .JOIN_IN_PROGRESS,
            session := sm.session,
            retry_budget := p.nb_trials.val },
          []⟩
      | _, _ => unspecified sm params

/-- Modelled from the spec: `is_connected()`, a "pure query, no side
effects" (section 4.1). -/
def is_connected (sm : session_sm) : Bool :=
  decide (sm.state = .CONNECTED)

/-! ## Channel plan registry (specification, section 4.2)

`install` and `get` are not part of the header either; they work on the
header's `lorawan_channelplan_t`. -/

/-- Modelled from the spec: the state of the channel plan registry: the plan
installed, if any (section 4.2). -/
structure channel_plan_registry where
  installed : Option lorawan_channelplan_t
  deriving DecidableEq, Repr

/-- Modelled from the spec: the "non-zero frequency invariant" of a channel
(sections 3 and 4.2). -/
def channel_params_t.frequency_ok (ch : channel_params_t) : Bool :=
  decide (ch.frequency ≠ 0)

/-- Modelled from the spec: `install(ChannelPlan)` of section 4.2; the
function is not in the header. It "validates every channel's min ≤ max and
non-zero frequency invariant; on any violation, the entire plan is rejected
with FREQUENCY_INVALID or DATARATE_INVALID (whichever fires first) and the
previously installed plan, if any, is left untouched". Section 8 asks for
`DATARATE_INVALID` whenever some channel has `min > max`, so the data-rate
ranges of all channels are validated before the frequencies. A plan that
passes replaces the installed one and the call returns `OK`. -/
def install (reg : channel_plan_registry) (plan : lorawan_channelplan_t) :
    lorawan_status_t × channel_plan_registry :=
  if plan.entries.any (fun c => !c.ch_param.dr_range_ok) then (.DATARATE_INVALID, reg)
  else if plan.entries.any (fun c => !c.ch_param.frequency_ok) then (.FREQUENCY_INVALID, reg)
  else (.OK, ⟨some plan⟩)

/-- Modelled from the spec: `get(channel_id)` of section 4.2, which "fails
with PARAMETER_INVALID if no channel with that identifier is installed"; the
function is not in the header. -/
def get (reg : channel_plan_registry) (channel_id : uint8_t) :
    Except lorawan_status_t loramac_channel_t :=
  match reg.installed with
  | none => .error .PARAMETER_INVALID
  | some plan =>
    match plan.entries.find? (fun c => c.id == channel_id) with
    | some c => .ok c
    | none => .error .PARAMETER_INVALID

/-! ## Message flags -/

/-- C8: every derived message-flag constant is the bitwise OR of the base
flags it is a mask for; the four base flags are single bits, pairwise
disjoint; and for every set `f` of base flags its flags word is unchanged by
`& MSG_FLAG_MASK` and determines the set: a base flag belongs to `f` exactly
when its bit is set in the word, so two sets with the same word are equal. -/
theorem C8_flag_masks :
    MSG_FLAG_MASK
        = MSG_UNCONFIRMED_FLAG ||| MSG_CONFIRMED_FLAG ||| MSG_MULTICAST_FLAG
          ||| MSG_PROPRIETARY_FLAG
      ∧ MSG_UNCONFIRMED_MULTICAST = MSG_UNCONFIRMED_FLAG ||| MSG_MULTICAST_FLAG
      ∧ MSG_CONFIRMED_MULTICAST = MSG_CONFIRMED_FLAG ||| MSG_MULTICAST_FLAG
      ∧ MSG_UNCONFIRMED_PROPRIETARY = MSG_UNCONFIRMED_FLAG ||| MSG_PROPRIETARY_FLAG
      ∧ MSG_CONFIRMED_PROPRIETARY = MSG_CONFIRMED_FLAG ||| MSG_PROPRIETARY_FLAG
      ∧ (∀ a : msg_flag, ∃ k : Nat, k < 4 ∧ a.bit = 2 ^ k)
      ∧ (∀ a b : msg_flag, a ≠ b → a.bit &&& b.bit = 0)
      ∧ (∀ f : msg_flag → Bool, flags_word f &&& MSG_FLAG_MASK = flags_word f)
      ∧ (∀ (f : msg_flag → Bool) (a : msg_flag),
          flags_word f &&& a.bit ≠ 0 ↔ f a = true)
      ∧ (∀ f g : msg_flag → Bool, flags_word f = flags_word g → f = g) := by
  have member : ∀ (f : msg_flag → Bool) (a : msg_flag),
      flags_word f &&& a.bit ≠ 0 ↔ f a = true := by
    intro f a
    cases a <;>
      cases h1 : f .UNCONFIRMED <;> cases h2 : f .CONFIRMED <;>
      cases h3 : f .MULTICAST <;> cases h4 : f .PROPRIETARY <;>
      simp only [flags_word, h1, h2, h3, h4] <;> decide
  refine ⟨by decide, by decide, by decide, by decide, by decide, ?_, ?_, ?_, member, ?_⟩
  · intro a
    cases a
    · exact ⟨0, by decide, by decide⟩
    · exact ⟨1, by decide, by decide⟩
    · exact ⟨2, by decide, by decide⟩
    · exact ⟨3, by decide, by decide⟩
  · intro a b hab
    cases a <;> cases b <;> first
      | exact absurd rfl hab
      | decide
  · intro f
    cases h1 : f .UNCONFIRMED <;> cases h2 : f .CONFIRMED <;>
      cases h3 : f .MULTICAST <;> cases h4 : f .PROPRIETARY <;>
      simp only [flags_word, h1, h2, h3, h4] <;> decide
  · intro f g hfg
    funext a
    have hf := member f a
    have hg := member g a
    rw [hfg] at hf
    cases hfa : f a <;> cases hga : g a <;> simp_all

/-! ## Events -/

/-- The code of each event, written out. -/
theorem lorawan_event_code_cases (e : lorawan_event_t) :
    e.code =
      match e with
      | .CONNECTED => 0
      | .DISCONNECTED => 1
      | .TX_DONE => 2
      | .TX_TIMEOUT => 3
      | .TX_ERROR => 4
      | .TX_CRYPTO_ERROR => 5
      | .TX_SCHEDULING_ERROR => 6
      | .RX_DONE => 7
      | .RX_TIMEOUT => 8
      | .RX_ERROR => 9
      | .JOIN_FAILURE => 10
      | .UPLINK_REQUIRED => 11
      | .AUTOMATIC_UPLINK_ERROR => 12 := by
  cases e <;> rfl

/-- C1: `lorawan_event_t` declares exactly the 13 events of the
specification's set, in that order; numbered by the C rule they have the
codes 0, 1, ..., 12 (`CONNECTED` = 0, `AUTOMATIC_UPLINK_ERROR` = 12); the
codes are pairwise distinct; every event is one of the 13; every code in
0..12 is the code of exactly one event, and no other number is the code of an
event. -/
theorem C1_event_vocabulary :
    lora_events.map Prod.fst = spec_event_set
      ∧ spec_event_set.length = 13
      ∧ spec_event_set.Nodup
      ∧ (∀ e : lorawan_event_t, e ∈ spec_event_set)
      ∧ enum_values 0 lora_events
          = [(.CONNECTED, 0), (.DISCONNECTED, 1), (.TX_DONE, 2), (.TX_TIMEOUT, 3),
              (.TX_ERROR, 4), (.TX_CRYPTO_ERROR, 5), (.TX_SCHEDULING_ERROR, 6),
              (.RX_DONE, 7), (.RX_TIMEOUT, 8), (.RX_ERROR, 9), (.JOIN_FAILURE, 10),
              (.UPLINK_REQUIRED, 11), (.AUTOMATIC_UPLINK_ERROR, 12)]
      ∧ spec_event_set.map lorawan_event_t.code
          = [0, 1, 2, 3, 4, 5, 6, 7, 8, 9, 10, 11, 12]
      ∧ Function.Injective lorawan_event_t.code
      ∧ (∀ n : Int, 0 ≤ n ∧ n ≤ 12 → ∃! e : lorawan_event_t, e.code = n)
      ∧ (∀ e : lorawan_event_t, 0 ≤ e.code ∧ e.code ≤ 12) := by
  have inj : Function.Injective lorawan_event_t.code := by
    intro a b hab
    rw [lorawan_event_code_cases a, lorawan_event_code_cases b] at hab
    cases a <;> cases b <;> first
      | rfl
      | (exfalso; simp at hab)
  refine ⟨rfl, rfl, by decide, ?_, rfl, rfl, inj, ?_, ?_⟩
  · intro e
    cases e <;> decide
  · rintro n ⟨h0, h12⟩
    have hex : ∃ e : lorawan_event_t, e.code = n := by
      interval_cases n
      · exact ⟨.CONNECTED, rfl⟩
      · exact ⟨.DISCONNECTED, rfl⟩
      · exact ⟨.TX_DONE, rfl⟩
      · exact ⟨.TX_TIMEOUT, rfl⟩
      · exact ⟨.TX_ERROR, rfl⟩
      · exact ⟨.TX_CRYPTO_ERROR, rfl⟩
      · exact ⟨.TX_SCHEDULING_ERROR, rfl⟩
      · exact ⟨.RX_DONE, rfl⟩
      · exact ⟨.RX_TIMEOUT, rfl⟩
      · exact ⟨.RX_ERROR, rfl⟩
      · exact ⟨.JOIN_FAILURE, rfl⟩
      · exact ⟨.UPLINK_REQUIRED, rfl⟩
      · exact ⟨.AUTOMATIC_UPLINK_ERROR, rfl⟩
    obtain ⟨e, he⟩ := hex
    exact ⟨e, he, fun e2 he2 => inj (he2.trans he.symm)⟩
  · intro e
    rw [lorawan_event_code_cases e]
    cases e <;> decide

/-! ## Statuses -/

/-- Looking up the code of a status gives the status back. -/
theorem status_of_code_code (s : lorawan_status_t) : status_of_code s.code = some s := by
  cases s <;> rfl

/-- The status codes are pairwise distinct. -/
theorem lorawan_status_code_injective : Function.Injective lorawan_status_t.code := by
  intro a b hab
  have h := status_of_code_code a
  rw [hab, status_of_code_code b] at h
  exact (Option.some.inj h).symm

/-- C2, as stated, fails: built without `LORAWAN_COMPLIANCE_TEST` the header
defines `LORAWAN_STATUS_SERVICE_UNKNOWN` (code -1002), which is not in the
taxonomy of section 7; the header defines 21 statuses, the section lists 20. -/
theorem C2_service_unknown_defined :
    lorawan_status_t.SERVICE_UNKNOWN ∈ lorawan_status false
      ∧ lorawan_status_t.SERVICE_UNKNOWN ∉ spec_status_taxonomy
      ∧ lorawan_status_t.SERVICE_UNKNOWN.code = -1002
      ∧ (lorawan_status false).length = 21
      ∧ spec_status_taxonomy.length = 20 := by
  decide

/-- C2, amended: built without `LORAWAN_COMPLIANCE_TEST`, the statuses that
`lorawan_status_t` defines are exactly the 20 statuses of section 7 and
`SERVICE_UNKNOWN`: each of the 20 is defined, `SERVICE_UNKNOWN` is defined
(declared fourth, after `WOULD_BLOCK`), no other status is defined, and in
particular `COMPLIANCE_TEST_ON` is not. -/
theorem C2_status_vocabulary :
    (∀ s : lorawan_status_t,
        s ∈ lorawan_status false ↔ s ∈ spec_status_taxonomy ∨ s = .SERVICE_UNKNOWN)
      ∧ lorawan_status false
          = spec_status_taxonomy.take 3 ++ [.SERVICE_UNKNOWN] ++ spec_status_taxonomy.drop 3
      ∧ (lorawan_status false).Nodup
      ∧ lorawan_status_t.COMPLIANCE_TEST_ON ∉ lorawan_status false := by
  refine ⟨?_, by decide, by decide, by decide⟩
  intro s
  cases s <;> decide

/-- C9: `LORAWAN_STATUS_OK` has code 0; every other status of
`lorawan_status_t`, the conditional `COMPLIANCE_TEST_ON` included, has a
strictly negative code; so a status has a non-negative code exactly when it is
`OK`; and the codes are pairwise distinct: the map from statuses to codes is
injective, and looking a status's code up among the enumerators gives that
status back. Every status is declared when `LORAWAN_COMPLIANCE_TEST` is
defined. -/
theorem C9_ok_only_nonnegative :
    lorawan_status_t.OK.code = 0
      ∧ (∀ s : lorawan_status_t, s ≠ .OK → s.code < 0)
      ∧ (∀ s : lorawan_status_t, 0 ≤ s.code ↔ s = .OK)
      ∧ Function.Injective lorawan_status_t.code
      ∧ (∀ s : lorawan_status_t, status_of_code s.code = some s)
      ∧ ((lorawan_status true).map lorawan_status_t.code).Nodup
      ∧ (∀ s : lorawan_status_t, s ∈ lorawan_status true) := by
  refine ⟨rfl, ?_, ?_, lorawan_status_code_injective, status_of_code_code, by decide, ?_⟩
  · intro s hs
    cases s <;> first
      | exact absurd rfl hs
      | decide
  · intro s
    cases s <;> decide
  · intro s
    cases s <;> decide

/-! ## Data-rate range -/

/-- A 4-bit field reads as a number from -8 to 7. -/
theorem int4_of_bits_range (u : Nat) (hu : u < 16) :
    -8 ≤ int4_of_bits u ∧ int4_of_bits u ≤ 7 := by
  unfold int4_of_bits
  split <;> omega

/-- Reading `fields.min` after `fields.min = d`: the low 4 bits of `d`,
sign-extended. -/
theorem fields_min_set_min (r : dr_range_t) (d : Int) :
    (r.set_min d).fields_min = if d % 16 < 8 then d % 16 else d % 16 - 16 := by
  simp only [dr_range_t.fields_min, dr_range_t.set_min, int4_of_bits]
  split <;> split <;> omega

/-- Reading `fields.max` after `fields.max = d`: the low 4 bits of `d`,
sign-extended. -/
theorem fields_max_set_max (r : dr_range_t) (d : Int) :
    (r.set_max d).fields_max = if d % 16 < 8 then d % 16 else d % 16 - 16 := by
  simp only [dr_range_t.fields_max, dr_range_t.set_max, int4_of_bits]
  split <;> split <;> omega

/-- Storing `fields.min` leaves `fields.max` as it was. -/
theorem fields_max_set_min (r : dr_range_t) (d : Int) :
    (r.set_min d).fields_max = r.fields_max := by
  simp only [dr_range_t.fields_max, dr_range_t.set_min, int4_of_bits]
  have h : (r.byte.val / 16 * 16 + (d % 16).toNat) / 16 = r.byte.val / 16 := by omega
  rw [h]

/-- Storing `fields.max` leaves `fields.min` as it was. -/
theorem fields_min_set_max (r : dr_range_t) (d : Int) :
    (r.set_max d).fields_min = r.fields_min := by
  simp only [dr_range_t.fields_min, dr_range_t.set_max, int4_of_bits]
  have h : ((d % 16).toNat * 16 + r.byte.val % 16) % 16 = r.byte.val % 16 := by omega
  rw [h]

/-- Storing a pair of in-range field values and reading the fields gives
the pair back. -/
theorem fields_of_fields (a b : Int) (ha : -8 ≤ a ∧ a ≤ 7) (hb : -8 ≤ b ∧ b ≤ 7) :
    (dr_range_t.of_fields a b).fields_min = a
      ∧ (dr_range_t.of_fields a b).fields_max = b := by
  unfold dr_range_t.of_fields
  rw [fields_min_set_max, fields_min_set_min, fields_max_set_max]
  constructor <;> split <;> omega

/-- Reading the two fields of an object and storing them again gives the
object back. -/
theorem of_fields_fields (r : dr_range_t) :
    dr_range_t.of_fields r.fields_min r.fields_max = r := by
  obtain ⟨⟨n, hn⟩⟩ := r
  simp only [dr_range_t.of_fields, dr_range_t.set_max, dr_range_t.set_min,
    dr_range_t.fields_min, dr_range_t.fields_max, int4_of_bits,
    dr_range_t.mk.injEq, Fin.mk.injEq]
  split <;> split <;> omega

/-- The byte read as `value` is a number from -128 to 127, and storing it
again gives the object back. -/
theorem set_value_value (r s : dr_range_t) :
    -128 ≤ r.value ∧ r.value ≤ 127 ∧ s.set_value r.value = r := by
  obtain ⟨⟨n, hn⟩⟩ := r
  simp only [dr_range_t.value, dr_range_t.set_value, int8_of_bits,
    dr_range_t.mk.injEq, Fin.mk.injEq]
  split <;> omega

/-- Storing an `int8_t` number as `value` and reading it gives the number. -/
theorem value_set_value (s : dr_range_t) (v : Int) (hv : -128 ≤ v ∧ v ≤ 127) :
    (s.set_value v).value = v := by
  simp only [dr_range_t.value, dr_range_t.set_value, int8_of_bits]
  split <;> omega

/-- C3, evaluated on the code: the fields are signed (`int8_t min : 4`), so
a data rate from DR_8 to DR_15 stored in `fields.min` or `fields.max` reads
back 16 lower, as a negative number (DR_15 as -1, DR_8 as -8); only DR_0 to
DR_7 read back as stored. -/
theorem C3_dr_8_to_15_read_back_negative :
    ((dr_range_t.mk 0).set_min 15).fields_min = -1
      ∧ ((dr_range_t.mk 0).set_max 15).fields_max = -1
      ∧ ((dr_range_t.mk 0).set_min 8).fields_min = -8
      ∧ ((dr_range_t.mk 0).set_max 8).fields_max = -8
      ∧ (∀ (r : dr_range_t) (d : Int), 8 ≤ d ∧ d ≤ 15 →
          (r.set_min d).fields_min = d - 16 ∧ (r.set_max d).fields_max = d - 16)
      ∧ (∀ (r : dr_range_t) (d : Int), 0 ≤ d ∧ d ≤ 7 →
          (r.set_min d).fields_min = d ∧ (r.set_max d).fields_max = d) := by
  refine ⟨by decide, by decide, by decide, by decide, ?_, ?_⟩
  · intro r d hd
    rw [fields_min_set_min, fields_max_set_max]
    constructor <;> split <;> omega
  · intro r d hd
    rw [fields_min_set_min, fields_max_set_max]
    constructor <;> split <;> omega

/-- C4, as stated, fails: the channel with frequency 868100000 whose
`dr_range` byte is 0x01 is a `channel_params_t` value, and an entry of a
one-channel plan, with `fields.min` = 1 and `fields.max` = 0. -/
theorem C4_min_above_max_constructible :
    (channel_params_t.mk 868100000 0 ⟨0x01⟩ 0).dr_range.fields_min = 1
      ∧ (channel_params_t.mk 868100000 0 ⟨0x01⟩ 0).dr_range.fields_max = 0
      ∧ ¬ ((channel_params_t.mk 868100000 0 ⟨0x01⟩ 0).dr_range.fields_min
            ≤ (channel_params_t.mk 868100000 0 ⟨0x01⟩ 0).dr_range.fields_max)
      ∧ (lorawan_channelplan_t.mk 1 [⟨0, ⟨868100000, 0, ⟨0x01⟩, 0⟩⟩]).entries
          = [⟨0, ⟨868100000, 0, ⟨0x01⟩, 0⟩⟩] := by
  decide

/-- C4, amended: `min <= max` is not a property of every `channel_params_t`
value but a condition a value may or may not meet. For every pair `(a, b)` of
4-bit field values (each from -8 to 7) and every frequency, RX1 frequency
and band there is a channel value with `fields.min = a` and `fields.max = b`,
and it passes the data-rate check `min <= max` exactly when `a <= b`. -/
theorem C4_min_le_max_is_a_check (frequency rx1_frequency : uint32_t) (band : uint8_t)
    (a b : Int) (ha : -8 ≤ a ∧ a ≤ 7) (hb : -8 ≤ b ∧ b ≤ 7) :
    (channel_params_t.mk frequency rx1_frequency (dr_range_t.of_fields a b) band).dr_range.fields_min
        = a
      ∧ (channel_params_t.mk frequency rx1_frequency (dr_range_t.of_fields a b) band).dr_range.fields_max
        = b
      ∧ ((channel_params_t.mk frequency rx1_frequency (dr_range_t.of_fields a b) band).dr_range_ok
          = true ↔ a ≤ b) := by
  obtain ⟨hmin, hmax⟩ := fields_of_fields a b ha hb
  refine ⟨hmin, hmax, ?_⟩
  simp only [channel_params_t.dr_range_ok, decide_eq_true_eq, hmin, hmax]

/-- C4, amended, at concrete inputs: the pair (5, 2) gives a channel that
fails the check. -/
theorem C4_min_le_max_is_a_check_witness :
    (channel_params_t.mk 868100000 0 (dr_range_t.of_fields 5 2) 0).dr_range.fields_min = 5
      ∧ (channel_params_t.mk 868100000 0 (dr_range_t.of_fields 5 2) 0).dr_range.fields_max = 2
      ∧ ((channel_params_t.mk 868100000 0 (dr_range_t.of_fields 5 2) 0).dr_range_ok = true
          ↔ (5 : Int) ≤ 2) :=
  C4_min_le_max_is_a_check 868100000 0 0 5 2 (by decide) (by decide)

/-- C10: the byte view and the field view of `dr_range_t` carry the same
information. Every object reads as a byte value from -128 to 127 and as a
pair of fields each from -8 to 7; the object is determined by its byte value
and by its pair of fields; the map from byte values to field pairs and the
map from field pairs to byte values are inverse to each other (a bijection
between the 256 byte values and the 16 x 16 pairs); and storing one field
leaves the other unchanged. -/
theorem C10_byte_view_field_view :
    (∀ r : dr_range_t,
        -128 ≤ r.value ∧ r.value ≤ 127
          ∧ -8 ≤ r.fields_min ∧ r.fields_min ≤ 7
          ∧ -8 ≤ r.fields_max ∧ r.fields_max ≤ 7)
      ∧ (∀ r : dr_range_t, (dr_range_t.mk 0).set_value r.value = r)
      ∧ (∀ r : dr_range_t, dr_range_t.of_fields r.fields_min r.fields_max = r)
      ∧ (∀ v : Int, -128 ≤ v ∧ v ≤ 127 →
          (dr_range_t.of_fields ((dr_range_t.mk 0).set_value v).fields_min
            ((dr_range_t.mk 0).set_value v).fields_max).value = v)
      ∧ (∀ a b : Int, -8 ≤ a ∧ a ≤ 7 → -8 ≤ b ∧ b ≤ 7 →
          ((dr_range_t.mk 0).set_value (dr_range_t.of_fields a b).value).fields_min = a
            ∧ ((dr_range_t.mk 0).set_value (dr_range_t.of_fields a b).value).fields_max = b)
      ∧ (∀ (r : dr_range_t) (d : Int), (r.set_min d).fields_max = r.fields_max)
      ∧ (∀ (r : dr_range_t) (d : Int), (r.set_max d).fields_min = r.fields_min) := by
  refine ⟨?_, ?_, of_fields_fields, ?_, ?_, fields_max_set_min, fields_min_set_max⟩
  · intro r
    have hv := set_value_value r r
    have hlo := int4_of_bits_range (r.byte.val % 16) (by omega)
    have hhi := int4_of_bits_range (r.byte.val / 16) (by omega)
    exact ⟨hv.1, hv.2.1, hlo.1, hlo.2, hhi.1, hhi.2⟩
  · intro r
    exact (set_value_value r _).2.2
  · intro v hv
    rw [of_fields_fields]
    exact value_set_value _ v hv
  · intro a b ha hb
    rw [(set_value_value (dr_range_t.of_fields a b) _).2.2]
    exact fields_of_fields a b ha hb

/-! ## Connection parameters -/

/-- The spare tag byte differs from both connection-type constants. -/
theorem spare_connect_type_ne (OTAA ABP : uint8_t) :
    spare_connect_type OTAA ABP ≠ OTAA ∧ spare_connect_type OTAA ABP ≠ ABP := by
  unfold spare_connect_type
  split_ifs with h0 h1
  · exact ⟨fun h => h0.1 h.symm, fun h => h0.2 h.symm⟩
  · exact ⟨fun h => h1.1 h.symm, fun h => h1.2 h.symm⟩
  · constructor
    · intro h
      rw [← h] at h0 h1
      revert h0 h1
      rcases ABP with ⟨n, hn⟩
      simp only [ne_eq, Fin.ext_iff]
      intro h0 h1
      omega
    · intro h
      rw [← h] at h0 h1
      revert h0 h1
      rcases OTAA with ⟨n, hn⟩
      simp only [ne_eq, Fin.ext_iff]
      intro h0 h1
      omega

/-- Reading a word after a store of a word: the stored word at the same
offset inside the union, the old word elsewhere. -/
theorem word_set_word {m : data_model} (c : lorawan_connect_t m) (i j : Nat) (v : uint32_t) :
    (c.set_word i v).word j = if j = i ∧ j < m.union_words then v else c.word j := by
  unfold lorawan_connect_t.word lorawan_connect_t.set_word
  by_cases hj : j < m.union_words
  · by_cases hij : j = i
    · subst hij
      simp [hj]
    · simp [hj, hij]
  · simp [hj]

/-- A store into the union leaves the tag as it was. -/
theorem connect_type_set_word {m : data_model} (c : lorawan_connect_t m) (i : Nat)
    (v : uint32_t) : (c.set_word i v).connect_type = c.connect_type :=
  rfl

/-- A pointer stored at a word offset inside the union reads back. -/
theorem pointer_set_pointer {m : data_model} (c : lorawan_connect_t m) (i p : Nat)
    (hi : i + m.pointer_words ≤ m.union_words) (hp : p < m.pointer_limit) :
    (c.set_pointer i p).pointer i = p := by
  cases m
  · simp only [data_model.pointer_words, data_model.union_words,
      data_model.pointer_limit] at hi hp
    have h1 : i < 4 := by omega
    simp [lorawan_connect_t.pointer, lorawan_connect_t.set_pointer,
      data_model.pointer_words, word_set_word, data_model.union_words, h1]
    omega
  · simp only [data_model.pointer_words, data_model.union_words,
      data_model.pointer_limit] at hi hp
    have h1 : i < 8 := by omega
    have h2 : i + 1 < 8 := by omega
    simp [lorawan_connect_t.pointer, lorawan_connect_t.set_pointer,
      data_model.pointer_words, word_set_word, data_model.union_words, h1, h2]
    omega

/-- C5, as stated, fails on both counts. Whatever the two connection-type
constants are, the tag byte `spare_connect_type` selects neither variant (with
the constants 0 and 1 that is the tag 2). And in the value tagged OTAA in
which the device address 0x26011BDA was stored through the ABP member,
reading `abp.dev_addr` yields 0x26011BDA, a value and not an error. -/
theorem C5_tag_selects_neither_and_read_unchecked :
    (∀ (m : data_model) (OTAA ABP : uint8_t),
        (lorawan_connect_t.mk (spare_connect_type OTAA ABP) (fun _ => 0) :
          lorawan_connect_t m).selected OTAA ABP = none)
      ∧ (lorawan_connect_t.mk 2 (fun _ => 0) :
          lorawan_connect_t .ILP32).selected 0 1 = none
      ∧ (∀ (m : data_model) (OTAA ABP : uint8_t),
          ((lorawan_connect_t.mk OTAA (fun _ => 0) :
              lorawan_connect_t m).set_abp_dev_addr 0x26011BDA).selected OTAA ABP
              = some .OTAA
            ∧ ((lorawan_connect_t.mk OTAA (fun _ => 0) :
              lorawan_connect_t m).set_abp_dev_addr 0x26011BDA).abp_dev_addr
              = 0x26011BDA) := by
  refine ⟨?_, by decide, ?_⟩
  · intro m OTAA ABP
    obtain ⟨h1, h2⟩ := spare_connect_type_ne OTAA ABP
    simp only [lorawan_connect_t.selected, if_neg h1, if_neg h2]
  · intro m OTAA ABP
    refine ⟨?_, ?_⟩
    · simp only [lorawan_connect_t.selected, lorawan_connect_t.set_abp_dev_addr,
        connect_type_set_word, if_true]
    · simp only [lorawan_connect_t.abp_dev_addr, lorawan_connect_t.set_abp_dev_addr,
        word_set_word]
      cases m <;> simp [data_model.union_words]

/-- C5, amended: activation parameters are a `uint8_t` tag and a plain union
whose two members share their storage, and the declaration does not tie one
to the other. With distinct connection-type constants, of the 256 tag bytes
exactly one selects OTAA, exactly one selects ABP and the other 254 select
neither variant. Reading a field of either member yields a value whatever the
tag is, namely what the storage holds at the place of the field: every field
reads back what was stored into it, and a store through one member is read
through the other as the same bytes (`abp.nwk_id` and the low 32 bits of
`otaa.dev_eui` are the same word). A store into the union leaves the tag as
it was. -/
theorem C5_tag_and_shared_union (m : data_model) (OTAA ABP : uint8_t) (hne : OTAA ≠ ABP)
    (c : lorawan_connect_t m) :
    (Finset.filter
        (fun t : uint8_t =>
          (lorawan_connect_t.mk t c.connection_u : lorawan_connect_t m).selected OTAA ABP
            = some .OTAA)
        Finset.univ).card = 1
      ∧ (Finset.filter
        (fun t : uint8_t =>
          (lorawan_connect_t.mk t c.connection_u : lorawan_connect_t m).selected OTAA ABP
            = some .ABP)
        Finset.univ).card = 1
      ∧ (Finset.filter
        (fun t : uint8_t =>
          (lorawan_connect_t.mk t c.connection_u : lorawan_connect_t m).selected OTAA ABP
            = none)
        Finset.univ).card = 254
      ∧ (∀ x : uint32_t,
          (c.set_abp_nwk_id x).abp_nwk_id = x ∧ (c.set_abp_dev_addr x).abp_dev_addr = x)
      ∧ (∀ p : Nat, p < m.pointer_limit →
          (c.set_abp_nwk_skey p).abp_nwk_skey = p
            ∧ (c.set_abp_app_skey p).abp_app_skey = p
            ∧ (c.set_otaa_dev_eui p).otaa_dev_eui = p
            ∧ (c.set_otaa_app_eui p).otaa_app_eui = p
            ∧ (c.set_otaa_app_key p).otaa_app_key = p)
      ∧ (∀ n : uint8_t, (c.set_otaa_nb_trials n).otaa_nb_trials = n)
      ∧ (∀ x : uint32_t, (c.set_abp_nwk_id x).otaa_dev_eui % 4294967296 = x.val)
      ∧ (∀ p : Nat, (c.set_otaa_dev_eui p).abp_nwk_id.val = p % 4294967296)
      ∧ (∀ x : uint32_t,
          (c.set_abp_nwk_id x).connect_type = c.connect_type
            ∧ (c.set_abp_dev_addr x).connect_type = c.connect_type) := by
  refine ⟨?_, ?_, ?_, ?_, ?_, ?_, ?_, ?_, ?_⟩
  · have h : Finset.filter
        (fun t : uint8_t =>
          (lorawan_connect_t.mk t c.connection_u : lorawan_connect_t m).selected OTAA ABP
            = some .OTAA)
        Finset.univ = {OTAA} := by
      ext t
      simp only [lorawan_connect_t.selected, Finset.mem_filter, Finset.mem_univ, true_and,
        Finset.mem_singleton]
      split_ifs with h1 h2 <;> simp [h1]
    rw [h, Finset.card_singleton]
  · have h : Finset.filter
        (fun t : uint8_t =>
          (lorawan_connect_t.mk t c.connection_u : lorawan_connect_t m).selected OTAA ABP
            = some .ABP)
        Finset.univ = {ABP} := by
      ext t
      simp only [lorawan_connect_t.selected, Finset.mem_filter, Finset.mem_univ, true_and,
        Finset.mem_singleton]
      split_ifs with h1 h2
      · have : t ≠ ABP := fun h => hne (h1.symm.trans h)
        simp [this]
      · simp [h2]
      · simp [h2]
    rw [h, Finset.card_singleton]
  · have h : Finset.filter
        (fun t : uint8_t =>
          (lorawan_connect_t.mk t c.connection_u : lorawan_connect_t m).selected OTAA ABP
            = none)
        Finset.univ = (Finset.univ.erase OTAA).erase ABP := by
      ext t
      simp only [lorawan_connect_t.selected, Finset.mem_filter, Finset.mem_univ, true_and,
        Finset.mem_erase, and_true]
      split_ifs with h1 h2 <;> simp [h1, *]
    rw [h, Finset.card_erase_of_mem, Finset.card_erase_of_mem (Finset.mem_univ _),
      Finset.card_univ, Fintype.card_fin]
    exact Finset.mem_erase.mpr ⟨fun h => hne h.symm, Finset.mem_univ _⟩
  · intro x
    constructor
    · simp only [lorawan_connect_t.abp_nwk_id, lorawan_connect_t.set_abp_nwk_id, word_set_word]
      cases m <;> simp [data_model.union_words]
    · simp only [lorawan_connect_t.abp_dev_addr, lorawan_connect_t.set_abp_dev_addr,
        word_set_word]
      cases m <;> simp [data_model.union_words]
  · intro p hp
    refine ⟨?_, ?_, ?_, ?_, ?_⟩
    · exact pointer_set_pointer c 2 p (by cases m <;> decide) hp
    · exact pointer_set_pointer c _ p (by cases m <;> decide) hp
    · exact pointer_set_pointer c 0 p (by cases m <;> decide) hp
    · exact pointer_set_pointer c _ p (by cases m <;> decide) hp
    · exact pointer_set_pointer c _ p (by cases m <;> decide) hp
  · intro n
    simp only [lorawan_connect_t.otaa_nb_trials, lorawan_connect_t.set_otaa_nb_trials,
      word_set_word]
    cases m <;> simp [data_model.union_words, data_model.pointer_words, Fin.ext_iff] <;> omega
  · intro x
    simp only [lorawan_connect_t.otaa_dev_eui, lorawan_connect_t.set_abp_nwk_id,
      lorawan_connect_t.pointer, word_set_word]
    cases m <;> simp [data_model.union_words, data_model.pointer_words]
  · intro p
    simp only [lorawan_connect_t.abp_nwk_id, lorawan_connect_t.set_otaa_dev_eui,
      lorawan_connect_t.set_pointer, word_set_word]
    cases m <;> simp [data_model.union_words, data_model.pointer_words, word_set_word]
  · intro x
    exact ⟨rfl, rfl⟩

/-- C5, amended, at concrete inputs: the ILP32 data model, the constants 0
and 1, and the value tagged 0 whose storage is all zero. -/
theorem C5_tag_and_shared_union_witness :
    ((0 : uint8_t) ≠ 1)
      ∧ (Finset.filter
        (fun t : uint8_t =>
          (lorawan_connect_t.mk t (fun _ => 0) : lorawan_connect_t .ILP32).selected 0 1 = none)
        Finset.univ).card = 254
      ∧ (∀ x : uint32_t,
          ((lorawan_connect_t.mk 0 (fun _ => 0) :
            lorawan_connect_t .ILP32).set_abp_nwk_id x).otaa_dev_eui % 4294967296 = x.val) :=
  ⟨by decide,
    (C5_tag_and_shared_union .ILP32 0 1 (by decide) ⟨0, fun _ => 0⟩).2.2.1,
    (C5_tag_and_shared_union .ILP32 0 1 (by decide) ⟨0, fun _ => 0⟩).2.2.2.2.2.2.1⟩

/-! ## Session state machine -/

/-- C6: for every state of the session state machine whose state-machine
state is `JOIN_IN_PROGRESS` and every activation-parameter value, `connect()`
returns `BUSY`, leaves the whole state (state-machine state, session
material, retry budget) unchanged and emits no event. -/
theorem C6_connect_busy_while_joining
    (unspecified : session_sm → connection_u_t → connect_result)
    (sm : session_sm) (params : connection_u_t) (h : sm.state = .JOIN_IN_PROGRESS) :
    (connect unspecified sm params).status = .BUSY
      ∧ (connect unspecified sm params).sm = sm
      ∧ (connect unspecified sm params).events = []
      ∧ is_connected (connect unspecified sm params).sm = is_connected sm := by
  have hc : connect unspecified sm params = ⟨.BUSY, sm, []⟩ := by
    unfold connect
    rw [h]
  rw [hc]
  exact ⟨rfl, rfl, rfl, rfl⟩

/-- C6 at concrete inputs: a join in progress with two trials left and OTAA
parameters without any identifier or key. -/
theorem C6_connect_busy_while_joining_witness :
    (session_sm.mk .JOIN_IN_PROGRESS none 2).state = .JOIN_IN_PROGRESS
      ∧ (connect (fun sm _ => ⟨.OK, sm, []⟩) (session_sm.mk .JOIN_IN_PROGRESS none 2)
          (.otaa ⟨none, none, none, 3⟩)).status = .BUSY
      ∧ (connect (fun sm _ => ⟨.OK, sm, []⟩) (session_sm.mk .JOIN_IN_PROGRESS none 2)
          (.otaa ⟨none, none, none, 3⟩)).sm = session_sm.mk .JOIN_IN_PROGRESS none 2 :=
  ⟨rfl,
    (C6_connect_busy_while_joining (fun sm _ => ⟨.OK, sm, []⟩)
      (session_sm.mk .JOIN_IN_PROGRESS none 2) (.otaa ⟨none, none, none, 3⟩) rfl).1,
    (C6_connect_busy_while_joining (fun sm _ => ⟨.OK, sm, []⟩)
      (session_sm.mk .JOIN_IN_PROGRESS none 2) (.otaa ⟨none, none, none, 3⟩) rfl).2.1⟩

/-! ## Channel plan registry -/

/-- C7: for every registry state and every plan in which some channel has
`min > max`, `install(plan)` returns `DATARATE_INVALID` and leaves the
registry, with the plan installed before (if any), exactly as it was;
`get(id)` gives the same result for every `id` before and after. -/
theorem C7_install_all_or_nothing (reg : channel_plan_registry) (plan : lorawan_channelplan_t)
    (h : ∃ c ∈ plan.entries,
      c.ch_param.dr_range.fields_min > c.ch_param.dr_range.fields_max) :
    (install reg plan).1 = .DATARATE_INVALID
      ∧ (install reg plan).2 = reg
      ∧ (∀ channel_id : uint8_t, get (install reg plan).2 channel_id = get reg channel_id) := by
  have hany : plan.entries.any (fun c => !c.ch_param.dr_range_ok) = true := by
    obtain ⟨c, hc, hlt⟩ := h
    rw [List.any_eq_true]
    refine ⟨c, hc, ?_⟩
    simp only [channel_params_t.dr_range_ok, Bool.not_eq_true', decide_eq_false_iff_not, not_le]
    exact hlt
  have hi : install reg plan = (.DATARATE_INVALID, reg) := by
    unfold install
    rw [if_pos hany]
  rw [hi]
  exact ⟨rfl, rfl, fun _ => rfl⟩

/-- C7 at concrete inputs: a registry holding a one-channel plan, and a
two-channel plan whose second channel has `min` = 1 and `max` = 0. -/
theorem C7_install_all_or_nothing_witness :
    (install ⟨some ⟨1, [⟨0, ⟨868100000, 0, ⟨0x50⟩, 0⟩⟩]⟩⟩
        ⟨2, [⟨0, ⟨868100000, 0, ⟨0x50⟩, 0⟩⟩, ⟨1, ⟨868300000, 0, ⟨0x01⟩, 0⟩⟩]⟩).1
        = .DATARATE_INVALID
      ∧ (install ⟨some ⟨1, [⟨0, ⟨868100000, 0, ⟨0x50⟩, 0⟩⟩]⟩⟩
        ⟨2, [⟨0, ⟨868100000, 0, ⟨0x50⟩, 0⟩⟩, ⟨1, ⟨868300000, 0, ⟨0x01⟩, 0⟩⟩]⟩).2
        = ⟨some ⟨1, [⟨0, ⟨868100000, 0, ⟨0x50⟩, 0⟩⟩]⟩⟩ :=
  ⟨(C7_install_all_or_nothing ⟨some ⟨1, [⟨0, ⟨868100000, 0, ⟨0x50⟩, 0⟩⟩]⟩⟩
      ⟨2, [⟨0, ⟨868100000, 0, ⟨0x50⟩, 0⟩⟩, ⟨1, ⟨868300000, 0, ⟨0x01⟩, 0⟩⟩]⟩
      ⟨⟨1, ⟨868300000, 0, ⟨0x01⟩, 0⟩⟩, by decide, by decide⟩).1,
    (C7_install_all_or_nothing ⟨some ⟨1, [⟨0, ⟨868100000, 0, ⟨0x50⟩, 0⟩⟩]⟩⟩
      ⟨2, [⟨0, ⟨868100000, 0, ⟨0x50⟩, 0⟩⟩, ⟨1, ⟨868300000, 0, ⟨0x01⟩, 0⟩⟩]⟩
      ⟨⟨1, ⟨868300000, 0, ⟨0x01⟩, 0⟩⟩, by decide, by decide⟩).2.1⟩

end Lorawan
